import Mathlib

/-!
Verification of the nengo-dl tutorial repository against its natural-language
specification.

The repository consists of four Jupyter notebooks (from-nengo.ipynb, packed
together with a nengobones-style CI configuration file; from-tensorflow.ipynb;
tensorflow-models.ipynb; spiking-mnist.ipynb) and a setup.cfg.  The claims are
mostly structural statements about these documents, plus behavioural claims
about three small code snippets (the rmtree onerror handler, the MNIST one-hot
encoding, and the Inception top-5 index sort).  The structural side is embedded
as inventories read off the source documents; the snippets are embedded as
executable Lean functions.
-/

/-! ## Source document inventory (for the line-count claim)

Line counts are taken over the source documents as supplied, with a final line
that lacks a trailing newline counted as a line, and the mechanical packing
separator lines (which are not repository content) excluded.  The from-nengo
notebook occupies lines 1-567 of the first unnamed source file; the
nengobones-style CI configuration occupies lines 568-624 of the same file; the
second unnamed source file is a 96-line setup.cfg.
-/

/-- Kind of a source document: notebook documentation, project configuration,
or an implementation module (no document of the third kind exists in this
repository; the constructor gives the classification its meaning). -/
inductive DocKind where
  | notebookDoc
  | configDoc
  | implementationModule
deriving DecidableEq

/-- One source document of the repository: its path, its number of lines, and
its classification. -/
structure SrcDoc where
  path : String
  numLines : Nat
  kind : DocKind
deriving DecidableEq

/-- The source documents of the repository with their line counts. -/
def srcDocs : List SrcDoc :=
  [ ⟨"docs/examples/from-nengo.ipynb", 567, DocKind.notebookDoc⟩,
    ⟨".nengobones.yml", 57, DocKind.configDoc⟩,
    ⟨"setup.cfg", 96, DocKind.configDoc⟩,
    ⟨"docs/examples/from-tensorflow.ipynb", 720, DocKind.notebookDoc⟩,
    ⟨"docs/examples/tensorflow-models.ipynb", 576, DocKind.notebookDoc⟩,
    ⟨"docs/examples/spiking-mnist.ipynb", 363, DocKind.notebookDoc⟩ ]

/-- Total number of source lines in the repository. -/
def srcTotalLines : Nat := (srcDocs.map (fun d => d.numLines)).sum

/-- Number of source lines belonging to implementation modules (the
implementation core). -/
def srcCoreLines : Nat :=
  ((srcDocs.filter (fun d => d.kind = DocKind.implementationModule)).map
    (fun d => d.numLines)).sum

/-! ## Class definitions and repository-owned constructions

The notebooks define exactly three Python classes, all callable wrappers that
are handed to nengo_dl.TensorNode: KerasNode and InceptionNode in
tensorflow-models.ipynb, and TensorFunc in from-tensorflow.ipynb.  selfAttrs
lists the attributes the class assigns on self (its instance state). -/

/-- A Python class defined by repository code: its name, the notebook defining
it, its base classes, and the instance attributes it assigns on self. -/
structure RepoClassDef where
  name : String
  definedIn : String
  bases : List String
  selfAttrs : List String
deriving DecidableEq

/-- The classes defined by repository code (all three are TensorNode wrapper
callables; linear scan of all class statements in the source). -/
def repoClassDefs : List RepoClassDef :=
  [ ⟨"KerasNode", "docs/examples/tensorflow-models.ipynb", [], ["model"]⟩,
    ⟨"InceptionNode", "docs/examples/tensorflow-models.ipynb", [], ["input_shape"]⟩,
    ⟨"TensorFunc", "docs/examples/from-tensorflow.ipynb", [], []⟩ ]

/-- A construction of an instance of a repository-defined class. -/
structure RepoCtorCall where
  site : String
  className : String
deriving DecidableEq

/-- All constructor calls of repository-defined classes in the notebooks (each
wrapper class is instantiated exactly once, as a TensorNode argument). -/
def repoTypeConstructions : List RepoCtorCall :=
  [ ⟨"tensorflow-models keras_node cell", "KerasNode"⟩,
    ⟨"tensorflow-models incep_node cell", "InceptionNode"⟩,
    ⟨"from-tensorflow TensorFunc TensorNode cell", "TensorFunc"⟩ ]

/-! ## Computations implemented in repository code

Inventory of the data transformations and computations that notebook cells
implement themselves (beyond directly invoking an external-library API and
reading the result).  TensorNode output callables are catalogued separately in
the TensorNode inventory below. -/

/-- Kind of a repository-implemented computation. -/
inductive CompKind where
  | dataPrep
  | objectiveFn
  | metricFn
  | trainingLoop
  | plottingHelper
  | algorithmicEngine
  | protocolImpl
  | schedulerImpl
  | dataStructureImpl
deriving DecidableEq

/-- A computation implemented by repository code in a notebook cell. -/
structure OwnComputation where
  notebook : String
  name : String
  kind : CompKind
deriving DecidableEq

/-- The computations implemented in repository code across the four notebooks:
the plot helper and last-10-steps mse objective in from-nengo, the explicit
TensorFlow minibatch training loop and the mse objective in from-tensorflow,
the one-hot encoding loop, softmax cross-entropy objective and classification
error metric in spiking-mnist, and the top-5 index sort in tensorflow-models. -/
def repoOwnComputations : List OwnComputation :=
  [ ⟨"docs/examples/from-nengo.ipynb", "plot", CompKind.plottingHelper⟩,
    ⟨"docs/examples/from-nengo.ipynb", "test_mse", CompKind.objectiveFn⟩,
    ⟨"docs/examples/from-tensorflow.ipynb", "tf minibatch training loop", CompKind.trainingLoop⟩,
    ⟨"docs/examples/from-tensorflow.ipynb", "mse", CompKind.objectiveFn⟩,
    ⟨"docs/examples/spiking-mnist.ipynb", "one_hot encoding loop", CompKind.dataPrep⟩,
    ⟨"docs/examples/spiking-mnist.ipynb", "objective", CompKind.objectiveFn⟩,
    ⟨"docs/examples/spiking-mnist.ipynb", "classification_error", CompKind.metricFn⟩,
    ⟨"docs/examples/tensorflow-models.ipynb", "sorted_inds top-5 selection", CompKind.dataPrep⟩ ]

/-! ## Error handling constructs

The only error-handling code in the repository is the onerror callback passed
to shutil.rmtree in the final cell of tensorflow-models.ipynb (the single
raise statement and the single conditional error recovery in the source). -/

/-- An error-handling construct defined by repository code. -/
structure ErrorHandler where
  notebook : String
  name : String
  inspectsCondition : Bool
  retriesOperation : Bool
  reraisesException : Bool
deriving DecidableEq

/-- All error-handling constructs defined by repository code. -/
def repoErrorHandlers : List ErrorHandler :=
  [ ⟨"docs/examples/tensorflow-models.ipynb", "onerror", true, true, true⟩ ]

/-! ## The onerror handler (tensorflow-models.ipynb, cleanup cell)

Python source:

  def onerror(func, path, exc_info):
      if not os.access(path, os.W_OK):
          os.chmod(path, stat.S_IWUSR)
          func(path)
      else:
          raise exc_info[1]

The handler is embedded as a function from the result of the os.access
writability test to the list of effects it performs, in order. -/

/-- An effect performed by the onerror handler. -/
inductive RmtreeEffect where
  | chmodOwnerWrite
  | callFuncOnPath
  | reraiseOriginal
deriving DecidableEq

/-- The onerror handler passed to shutil.rmtree, as a function of the result
of the os.access(path, os.W_OK) test: when the path is not writable it chmods
the owner-write bit and calls func(path) once; otherwise it re-raises the
original exception exc_info[1]. -/
def onerror (pathWritable : Bool) : List RmtreeEffect :=
  if !pathWritable then
    [RmtreeEffect.chmodOwnerWrite, RmtreeEffect.callFuncOnPath]
  else
    [RmtreeEffect.reraiseOriginal]

/-! ## TensorNode output callables

Each nengo_dl.TensorNode constructed in the source files receives a function or
callable whose body is embedded here as a small expression tree over the tensor
inputs (t, the simulation time, and x, the input vector).  Constructors:
frameworkOp1/frameworkOp2 are operations of the deep-learning framework
(tensorflow, tf.layers, tf.nn, keras model calls, slim/inception graph
builders, and the nengo_dl print_op utility, all of which emit TensorFlow graph
operations); numpyOp1 is a plain NumPy numeric operation; pyConst is a plain
Python value.  The last two never occur in any TensorNode body, which is what
the TensorNode claim asserts; they give the predicates their meaning.

nengo_dl.tensor_layer calls that pass a TensorFlow layer function also lead to
TensorNode construction (inside nengo_dl); those uses are included and flagged
viaTensorLayer.  tensor_layer calls that pass a Nengo neuron type construct
Ensembles, not TensorNodes, and are not listed. -/

/-- Expression tree for the body of a TensorNode output callable. -/
inductive TnExpr where
  | input (x : String)
  | frameworkOp1 (op : String) (a : TnExpr)
  | frameworkOp2 (op : String) (a b : TnExpr)
  | numpyOp1 (op : String) (a : TnExpr)
  | pyConst (v : String)
deriving DecidableEq

/-- True when the expression contains only deep-learning-framework operations
and tensor inputs (no NumPy operation, no plain Python value). -/
def TnExpr.usesOnlyFrameworkOps : TnExpr → Bool
  | TnExpr.input _ => true
  | TnExpr.frameworkOp1 _ a => a.usesOnlyFrameworkOps
  | TnExpr.frameworkOp2 _ a b => a.usesOnlyFrameworkOps && b.usesOnlyFrameworkOps
  | TnExpr.numpyOp1 _ _ => false
  | TnExpr.pyConst _ => false

/-- True when the root of the expression is a deep-learning-framework
operation application. -/
def TnExpr.isFrameworkApplication : TnExpr → Bool
  | TnExpr.frameworkOp1 _ _ => true
  | TnExpr.frameworkOp2 _ _ _ => true
  | _ => false

/-- True when the expression returns a tensor input unchanged. -/
def TnExpr.isInputPassThrough : TnExpr → Bool
  | TnExpr.input _ => true
  | _ => false

/-- A TensorNode construction site with the body of its output callable. -/
structure TensorNodeUse where
  site : String
  viaTensorLayer : Bool
  body : TnExpr
deriving DecidableEq

/-- All TensorNode constructions in the source files, with the embedded bodies
of their output callables. -/
def tensorNodeUses : List TensorNodeUse :=
  [ ⟨"from-nengo exp_tf", false,
      TnExpr.frameworkOp1 "tf.exp" (TnExpr.input "x")⟩,
    ⟨"from-tensorflow batch_norm tensor_layer", true,
      TnExpr.frameworkOp1 "tf.layers.batch_normalization" (TnExpr.input "x")⟩,
    ⟨"from-tensorflow batch_norm TensorNode", false,
      TnExpr.frameworkOp1 "tf.layers.batch_normalization" (TnExpr.input "x")⟩,
    ⟨"from-tensorflow tensor_func", false,
      TnExpr.frameworkOp2 "tf.add"
        (TnExpr.frameworkOp1 "nengo_dl.utils.print_op" (TnExpr.input "t"))
        (TnExpr.frameworkOp1 "nengo_dl.utils.print_op" (TnExpr.input "x"))⟩,
    ⟨"from-tensorflow TensorFunc", false, TnExpr.input "x"⟩,
    ⟨"tensorflow-models sin_func", false,
      TnExpr.frameworkOp1 "tf.reshape"
        (TnExpr.frameworkOp1 "tf.sin" (TnExpr.input "t"))⟩,
    ⟨"tensorflow-models KerasNode", false,
      TnExpr.frameworkOp1 "keras model call"
        (TnExpr.frameworkOp1 "tf.reshape" (TnExpr.input "x"))⟩,
    ⟨"tensorflow-models InceptionNode", false,
      TnExpr.frameworkOp1 "tf.nn.softmax"
        (TnExpr.frameworkOp1 "inception.inception_v1"
          (TnExpr.frameworkOp1 "tf.expand_dims"
            (TnExpr.frameworkOp1 "inception_preprocessing.preprocess_image"
              (TnExpr.frameworkOp1 "tf.reshape"
                (TnExpr.frameworkOp1 "tf.cast" (TnExpr.input "x"))))))⟩,
    ⟨"spiking-mnist conv layer 1", true,
      TnExpr.frameworkOp1 "tf.layers.conv2d" (TnExpr.input "x")⟩,
    ⟨"spiking-mnist conv layer 2", true,
      TnExpr.frameworkOp1 "tf.layers.conv2d" (TnExpr.input "x")⟩,
    ⟨"spiking-mnist pooling layer 1", true,
      TnExpr.frameworkOp1 "tf.layers.average_pooling2d" (TnExpr.input "x")⟩,
    ⟨"spiking-mnist conv layer 3", true,
      TnExpr.frameworkOp1 "tf.layers.conv2d" (TnExpr.input "x")⟩,
    ⟨"spiking-mnist pooling layer 2", true,
      TnExpr.frameworkOp1 "tf.layers.average_pooling2d" (TnExpr.input "x")⟩,
    ⟨"spiking-mnist dense readout", true,
      TnExpr.frameworkOp1 "tf.layers.dense" (TnExpr.input "x")⟩ ]

/-! ## Module-level mutations

Inventory of the places where notebook code mutates an object (or external
global state) in place at module level, as opposed to rebinding a name.
stateIntroducedByRepo records whether the mutated state is held by an object
the repository code itself constructed and bound at module level (as opposed
to pre-existing global state of an external library such as the NumPy RNG or
sys.path).  targetTypeRepoOwned records whether the mutated object is an
instance of a repository-defined class (it never is). -/

/-- A module-level in-place mutation performed by notebook code. -/
structure ModuleMutation where
  notebook : String
  target : String
  targetType : String
  targetTypeRepoOwned : Bool
  stateIntroducedByRepo : Bool
deriving DecidableEq

/-- All module-level in-place mutations in the notebooks. -/
def moduleMutations : List ModuleMutation :=
  [ ⟨"docs/examples/from-nengo.ipynb", "np.random.seed call", "numpy global RNG", false, false⟩,
    ⟨"docs/examples/from-nengo.ipynb", "conn.synapse reassignment", "nengo.Connection", false, true⟩,
    ⟨"docs/examples/from-nengo.ipynb", "outpt_p.synapse reassignment", "nengo.Probe", false, true⟩,
    ⟨"docs/examples/from-tensorflow.ipynb", "np.random.shuffle on train_data", "numpy.ndarray", false, true⟩,
    ⟨"docs/examples/from-tensorflow.ipynb", "ens.gain and ens.bias reassignment", "nengo.Ensemble", false, true⟩,
    ⟨"docs/examples/from-tensorflow.ipynb", "conn.synapse reassignment", "nengo.Connection", false, true⟩,
    ⟨"docs/examples/spiking-mnist.ipynb", "one_hot scatter assignment", "numpy.ndarray", false, true⟩,
    ⟨"docs/examples/spiking-mnist.ipynb", "data element 1 assignment", "python list", false, true⟩,
    ⟨"docs/examples/tensorflow-models.ipynb", "sys.path.append call", "python list", false, false⟩ ]

/-! ## Notebook cell inventory (name binding)

For the linear-script claim each notebook is embedded as its ordered list of
code cells.  For every code cell, binds lists the module-level names the cell
assigns (imports, def and class statements, plain and with/as and for-loop
assignments at module level; throwaway underscore targets omitted), and refs
lists the module-level names the cell reads whose binding the cell does not
itself create before the read (function bodies contribute their free
module-level names; function parameters and other local names are excluded;
Python builtins and IPython magics are excluded).  A notebook is linear when
every refs entry of every cell is bound by some strictly earlier cell. -/

/-- A notebook code cell: the module-level names it binds and the module-level
names it references but does not bind before use. -/
structure NbCell where
  binds : List String
  refs : List String
deriving DecidableEq

/-- Check that, threading the bound-name environment through the cells in
order, every cell references only names already in the environment. -/
def cellsLinearFrom (env : List String) : List NbCell → Bool
  | [] => true
  | c :: rest =>
      c.refs.all (fun n => env.contains n) && cellsLinearFrom (env ++ c.binds) rest

/-- A notebook is a linear script when executing its code cells top to bottom
never references a name that no earlier cell has bound. -/
def notebookLinear (cells : List NbCell) : Bool := cellsLinearFrom [] cells

/-- Code cells of from-nengo.ipynb. -/
def fromNengoCells : List NbCell :=
  [ ⟨["plt", "nengo", "np", "tf", "nengo_dl", "seed"], []⟩,
    ⟨["net", "inpt", "square", "sin", "outpt", "inpt_p", "outpt_p"],
      ["nengo", "np", "seed"]⟩,
    ⟨["sim"], ["nengo", "net", "seed"]⟩,
    ⟨["plot"], ["plt", "np", "inpt_p", "outpt_p", "sim"]⟩,
    ⟨["sim"], ["nengo_dl", "net", "seed", "plot"]⟩,
    ⟨["reps", "sim", "axes", "i"], ["nengo", "net", "plt", "plot"]⟩,
    ⟨["sim", "axes", "i"], ["nengo_dl", "net", "reps", "plt", "plot"]⟩,
    ⟨["sim"], ["nengo_dl", "net", "inpt", "np", "plot"]⟩,
    ⟨["sim", "axes", "i"], ["nengo_dl", "net", "reps", "inpt", "np", "plt", "plot"]⟩,
    ⟨["conn", "outpt_p_nofilt"], ["net", "nengo", "outpt", "outpt_p"]⟩,
    ⟨["sim"], ["nengo_dl", "net", "seed", "plot"]⟩,
    ⟨[], ["net", "nengo_dl", "nengo"]⟩,
    ⟨["batch_size", "minibatch_size", "n_steps", "vals", "data"],
      ["np", "inpt", "outpt_p_nofilt"]⟩,
    ⟨["sim"],
      ["nengo_dl", "net", "minibatch_size", "seed", "data", "tf",
       "outpt_p_nofilt", "plot"]⟩,
    ⟨["test_vals"], ["np"]⟩,
    ⟨["test_steps", "test_vals", "test_data"],
      ["np", "test_vals", "inpt", "outpt_p"]⟩,
    ⟨["test_mse"], ["tf"]⟩,
    ⟨["sim"],
      ["nengo_dl", "net", "minibatch_size", "seed", "test_data", "outpt_p",
       "test_mse", "data", "tf", "outpt_p_nofilt"]⟩,
    ⟨["exp_np", "np_probe", "exp_tf", "tf_probe", "sim"],
      ["net", "nengo", "np", "sin", "nengo_dl", "tf", "seed", "plt", "inpt_p"]⟩ ]

/-- Code cells of from-tensorflow.ipynb. -/
def fromTensorflowCells : List NbCell :=
  [ ⟨["gzip", "pickle", "urlretrieve", "plt", "nengo", "rasterplot", "np",
      "tf", "nengo_dl"], []⟩,
    ⟨["n_in", "n_hidden", "minibatch_size", "auto_graph", "tf_a", "tf_b",
      "tf_c"], ["tf"]⟩,
    ⟨["auto_net", "nengo_a", "nengo_b", "nengo_c", "p_c"],
      ["nengo", "np", "n_in", "n_hidden", "nengo_dl"]⟩,
    ⟨["sess", "output"],
      ["tf", "auto_graph", "tf_c", "tf_a", "np", "minibatch_size", "n_in"]⟩,
    ⟨["sim"],
      ["nengo_dl", "auto_net", "minibatch_size", "nengo_a", "np", "n_in"]⟩,
    ⟨["net", "a", "b_rate", "b_spike", "p_a", "p_rate", "p_spike", "sim"],
      ["nengo", "np", "nengo_dl", "plt", "rasterplot"]⟩,
    ⟨["filt", "filtered_spikes"], ["nengo", "sim", "p_spike", "plt"]⟩,
    ⟨["batch_norm", "p_batch_norm"],
      ["net", "nengo_dl", "b_rate", "tf", "nengo"]⟩,
    ⟨["batch_norm", "p_batch_norm"],
      ["net", "nengo_dl", "tf", "nengo", "b_rate"]⟩,
    ⟨["net", "a", "tensor_func", "b", "p", "sim"],
      ["nengo", "nengo_dl", "tf"]⟩,
    ⟨["net", "TensorFunc", "a", "sim"], ["nengo", "tf", "nengo_dl"]⟩,
    ⟨["train_data", "test_data", "n_epochs", "f"],
      ["urlretrieve", "gzip", "pickle", "np"]⟩,
    ⟨["targets", "loss", "optimizer", "opt_op", "sess", "i", "j", "error",
      "output"],
      ["auto_graph", "tf", "minibatch_size", "n_in", "tf_c", "n_epochs",
       "train_data", "tf_a", "np", "test_data", "plt"]⟩,
    ⟨["ens", "conn"], ["auto_net", "nengo"]⟩,
    ⟨["train_data", "test_data"], ["train_data", "test_data"]⟩,
    ⟨["mse", "sim", "error"],
      ["tf", "nengo_dl", "auto_net", "minibatch_size", "nengo_a",
       "train_data", "p_c", "n_epochs", "test_data", "plt"]⟩,
    ⟨["net", "inpt", "ens0", "ens1", "outpt", "inpt_p", "outpt_p", "sim"],
      ["nengo", "np", "nengo_dl", "plt"]⟩,
    ⟨["sim"], ["nengo", "net", "plt", "np", "inpt_p", "outpt_p"]⟩ ]

/-- Code cells of tensorflow-models.ipynb. -/
def tensorflowModelsCells : List NbCell :=
  [ ⟨["sys", "os", "urlopen", "io", "shutil", "stat", "np", "plt", "Image",
      "tf", "keras", "slim", "nengo", "nengo_dl"], []⟩,
    ⟨["net", "sin_func", "node", "p", "sim"],
      ["nengo", "tf", "nengo_dl", "plt"]⟩,
    ⟨["fashion_mnist", "train_images", "train_labels", "test_images",
      "test_labels", "num_classes", "class_names", "i"],
      ["keras", "np", "plt"]⟩,
    ⟨["image_shape", "model"],
      ["keras", "tf", "num_classes", "train_images", "train_labels"]⟩,
    ⟨["model_weights"], ["model"]⟩,
    ⟨["KerasNode"], ["keras", "tf", "image_shape", "model_weights"]⟩,
    ⟨["out1", "out2"], ["tf", "model", "model_weights", "test_images"]⟩,
    ⟨["net_input_shape", "net", "input_node", "keras_node", "keras_p"],
      ["np", "image_shape", "nengo", "nengo_dl", "KerasNode", "model",
       "num_classes"]⟩,
    ⟨["minibatch_size", "test_inds", "test_inputs"],
      ["np", "test_images", "net_input_shape"]⟩,
    ⟨["sim"],
      ["nengo_dl", "net", "minibatch_size", "input_node", "test_inputs"]⟩,
    ⟨["tensornode_output", "i"],
      ["sim", "keras_p", "plt", "test_images", "test_inds", "class_names",
       "test_labels", "np"]⟩,
    ⟨["dataset_utils", "imagenet", "inception", "inception_preprocessing"],
      ["sys", "os"]⟩,
    ⟨["url", "image_string", "image", "image_shape"],
      ["urlopen", "np", "Image", "io", "plt"]⟩,
    ⟨["checkpoints_dir", "InceptionNode"],
      ["inception", "tf", "dataset_utils", "image_shape",
       "inception_preprocessing", "slim", "os"]⟩,
    ⟨["net", "input_node", "incep_node", "input_p", "incep_p"],
      ["nengo", "image", "nengo_dl", "InceptionNode", "np", "image_shape"]⟩,
    ⟨["sim", "probabilities", "sorted_inds", "names", "i", "index"],
      ["nengo_dl", "net", "incep_p", "imagenet", "plt", "input_p",
       "image_shape", "np"]⟩,
    ⟨["onerror"], ["os", "stat", "shutil"]⟩ ]

/-- Code cells of spiking-mnist.ipynb. -/
def spikingMnistCells : List NbCell :=
  [ ⟨["gzip", "pickle", "urlretrieve", "zipfile", "nengo", "tf", "np", "plt",
      "nengo_dl"], []⟩,
    ⟨["f", "train_data", "test_data", "data", "one_hot", "i"],
      ["urlretrieve", "gzip", "pickle", "np", "plt"]⟩,
    ⟨["net", "neuron_type", "inp", "x", "out_p", "out_p_filt"],
      ["nengo", "nengo_dl", "tf"]⟩,
    ⟨["minibatch_size", "sim"], ["nengo_dl", "net"]⟩,
    ⟨["train_data", "test_data", "n_steps"],
      ["inp", "train_data", "out_p", "np", "test_data", "minibatch_size",
       "out_p_filt"]⟩,
    ⟨["objective"], ["tf"]⟩,
    ⟨["opt"], ["tf"]⟩,
    ⟨["classification_error"], ["tf", "sim", "test_data", "out_p_filt"]⟩,
    ⟨["do_training", "f"],
      ["sim", "train_data", "opt", "objective", "out_p", "urlretrieve",
       "zipfile"]⟩,
    ⟨[], ["sim", "test_data", "out_p_filt", "classification_error"]⟩,
    ⟨["i"],
      ["sim", "n_steps", "test_data", "inp", "minibatch_size", "plt", "np"]⟩,
    ⟨[], ["sim"]⟩ ]

/-! ## The one-hot encoding (spiking-mnist.ipynb, data loading cell)

Python source (run once per dataset, with n = data[0].shape[0] items and
data[1] the integer label array):

  one_hot = np.zeros((data[0].shape[0], 10))
  one_hot[np.arange(data[0].shape[0]), data[1]] = 1

The array is embedded as a list of rows; np.zeros as npZeros; the fancy-index
assignment as fancySet over the list of (row, column) pairs
(np.arange n).zip labels.  An out-of-range index in the embedding leaves the
array unchanged where NumPy would raise an IndexError; the one-hot claim only
concerns labels in 0..9, where no index is out of range. -/

/-- The np.zeros((n, m)) array, as a list of n rows of m zeros. -/
def npZeros (n m : Nat) : List (List Nat) :=
  List.replicate n (List.replicate m 0)

/-- Write value v at row i, column j of a nested-list array. -/
def setEntry (a : List (List Nat)) (i j v : Nat) : List (List Nat) :=
  a.set i ((a.getD i []).set j v)

/-- NumPy fancy-index assignment a[rows, cols] = v, writing v at each listed
(row, column) position in order. -/
def fancySet (a : List (List Nat)) (idx : List (Nat × Nat)) (v : Nat) :
    List (List Nat) :=
  idx.foldl (fun acc p => setEntry acc p.1 p.2 v) a

/-- The one_hot array built by the spiking-mnist data-loading cell from the
integer label list. -/
def one_hot (labels : List Nat) : List (List Nat) :=
  fancySet (npZeros labels.length 10) ((List.range labels.length).zip labels) 1

/-! ## The top-5 index sort (tensorflow-models.ipynb, Inception output cell)

Python source:

  sorted_inds = [i[0] for i in sorted(enumerate(-probabilities),
                                      key=lambda x: x[1])]

Probabilities are embedded as rationals.  Python sorted is a stable sort by
the key; it is embedded as List.mergeSort on the enumerated negated list,
comparing second components. -/

/-- The sorted_inds list of the Inception output cell: indices of the
probability vector, sorted by ascending negated probability. -/
def sorted_inds (probabilities : List ℚ) : List Nat :=
  (((probabilities.map (fun p => -p)).enum).mergeSort
      (fun a b => decide (a.2 ≤ b.2))).map Prod.fst

/-! ## Helper lemmas about the array embedding -/

/-- Unfolding fancySet on an empty index list. -/
theorem fancySet_nil (a : List (List Nat)) (v : Nat) : fancySet a [] v = a := rfl

/-- Unfolding fancySet on a cons index list. -/
theorem fancySet_cons (a : List (List Nat)) (p : Nat × Nat)
    (idx : List (Nat × Nat)) (v : Nat) :
    fancySet a (p :: idx) v = fancySet (setEntry a p.1 p.2 v) idx v := rfl

/-- Writing one entry preserves the number of rows. -/
theorem length_setEntry (a : List (List Nat)) (i j v : Nat) :
    (setEntry a i j v).length = a.length :=
  List.length_set a i _

/-- Fancy-index assignment preserves the number of rows. -/
theorem length_fancySet (idx : List (Nat × Nat)) (v : Nat) :
    ∀ a : List (List Nat), (fancySet a idx v).length = a.length := by
  induction idx with
  | nil => intro a; rfl
  | cons p rest ih =>
      intro a
      rw [fancySet_cons, ih, length_setEntry]

/-- Writing an entry of row i leaves every other row unchanged. -/
theorem getD_setEntry_ne (a : List (List Nat)) (i j v r : Nat) (hne : r ≠ i) :
    (setEntry a i j v).getD r [] = a.getD r [] := by
  unfold setEntry
  rw [List.getD_eq_getElem?_getD, List.getElem?_set,
    if_neg (by omega : ¬ i = r), List.getD_eq_getElem?_getD]

/-- Writing an entry of row i replaces row i by its updated version. -/
theorem getD_setEntry_self (a : List (List Nat)) (i j v : Nat)
    (h : i < a.length) :
    (setEntry a i j v).getD i [] = (a.getD i []).set j v := by
  unfold setEntry
  rw [List.getD_eq_getElem?_getD, List.getElem?_set]
  simp [h, List.getD_eq_getElem?_getD]

/-- Row contents after a fancy-index assignment whose row indices are the
consecutive integers k, k+1, ... : each targeted row is updated once at the
column given by the corresponding label, and every other row is untouched. -/
theorem getD_fancySet_range'_zip (v : Nat) :
    ∀ (labels : List Nat) (k : Nat) (a : List (List Nat)),
      k + labels.length ≤ a.length →
      ∀ i, (fancySet a ((List.range' k labels.length).zip labels) v).getD i []
        = if k ≤ i ∧ i < k + labels.length
          then (a.getD i []).set (labels.getD (i - k) 0) v
          else a.getD i [] := by
  intro labels
  induction labels with
  | nil =>
      intro k a _ i
      simp only [List.length_nil, List.range'_zero, List.zip_nil_right,
        fancySet_nil]
      rw [if_neg (by omega)]
  | cons l ls ih =>
      intro k a h i
      have hlen : (l :: ls).length = ls.length + 1 := rfl
      rw [hlen, List.range'_succ, List.zip_cons_cons, fancySet_cons]
      have ha' : (setEntry a k l v).length = a.length := length_setEntry a k l v
      have h' : (k + 1) + ls.length ≤ (setEntry a k l v).length := by
        rw [ha']; rw [hlen] at h; omega
      rw [ih (k + 1) (setEntry a k l v) h' i]
      by_cases hik : i = k
      · subst hik
        rw [if_neg (by omega), if_pos (by omega)]
        rw [getD_setEntry_self a i l v (by rw [hlen] at h; omega)]
        simp only [Nat.sub_self, List.getD_cons_zero]
      · by_cases hcond : k + 1 ≤ i ∧ i < (k + 1) + ls.length
        · rw [if_pos hcond, if_pos (by omega)]
          rw [getD_setEntry_ne a k l v i hik]
          have hsub : i - k = (i - (k + 1)) + 1 := by omega
          rw [hsub, List.getD_cons_succ]
        · rw [if_neg hcond, if_neg (by omega)]
          exact getD_setEntry_ne a k l v i hik

/-- Row i of the one_hot array is the all-zero row of width 10 with a 1
written at the column given by label i. -/
theorem one_hot_getD_row (labels : List Nat) (i : Nat)
    (hi : i < labels.length) :
    (one_hot labels).getD i [] = (List.replicate 10 0).set (labels.getD i 0) 1 := by
  unfold one_hot
  rw [List.range_eq_range']
  rw [getD_fancySet_range'_zip 1 labels 0 (npZeros labels.length 10)
    (by simp [npZeros])]
  rw [if_pos (by omega)]
  have hz : (npZeros labels.length 10).getD i [] = List.replicate 10 0 := by
    simp only [npZeros, List.getD_eq_getElem?_getD, List.getElem?_replicate,
      if_pos hi, Option.getD_some]
  rw [hz, Nat.sub_zero]

/-! ## Claim theorems -/

/-- C1, counterexample: the claim that no class or stateful structure is
defined by repository code, and that every constructed object is an instance
of an externally-owned type, is false: the notebooks define the classes
KerasNode, InceptionNode and TensorFunc and construct instances of them. -/
theorem claim1_counterexample :
    ¬ (repoClassDefs = [] ∧ repoTypeConstructions = []) := by decide

/-- C1, amended: the only classes defined by repository code are the three
TensorNode wrapper callables KerasNode, InceptionNode and TensorFunc, and
every construction of a repository-owned instance in the notebooks is a
construction of one of these three wrappers; every other constructed object
is an instance of an externally-owned type. -/
theorem claim1_only_wrapper_classes :
    repoClassDefs.map (fun c => c.name) = ["KerasNode", "InceptionNode", "TensorFunc"] ∧
    repoTypeConstructions.all
      (fun c => (repoClassDefs.map (fun d => d.name)).contains c.className) = true := by
  decide

/-- C2, counterexample: the claim that no cell implements a data
transformation or computation of its own in repository code is false: the
notebooks implement, among others, the one-hot encoding loop and the
sorted_inds top-5 selection in repository code. -/
theorem claim2_counterexample : ¬ repoOwnComputations = [] := by decide

/-- C2, amended: the computations implemented in repository code are eight
small helpers (data preparation, objective and metric functions, a plotting
helper, and one explicit TensorFlow training loop); none of them is an
algorithmic engine, a protocol, a scheduler, or a data-structure
implementation. -/
theorem claim2_own_computations_are_small_helpers :
    repoOwnComputations.length = 8 ∧
    repoOwnComputations.all (fun c =>
      [CompKind.dataPrep, CompKind.objectiveFn, CompKind.metricFn,
       CompKind.trainingLoop, CompKind.plottingHelper].contains c.kind) = true := by
  decide

/-- C3, counterexample: the claim that no repository-defined code inspects an
error condition, retries a failed operation, or re-raises an exception is
false: the onerror handler in tensorflow-models.ipynb does all three. -/
theorem claim3_counterexample : ¬ repoErrorHandlers = [] := by decide

/-- C3, amended: the only error-handling construct in repository code is the
onerror handler of tensorflow-models.ipynb, which inspects the writability of
the failing path, re-raising the original exception exactly when the path is
writable and otherwise chmodding and retrying. -/
theorem claim3_only_onerror_handler :
    repoErrorHandlers.map (fun h => h.name) = ["onerror"] ∧
    repoErrorHandlers.all
      (fun h => h.notebook == "docs/examples/tensorflow-models.ipynb") = true ∧
    RmtreeEffect.reraiseOriginal ∈ onerror true ∧
    RmtreeEffect.reraiseOriginal ∉ onerror false := by decide

/-- C4, counterexample: the repository source files do not total exactly
2380 lines; they total 2379 lines (567 for from-nengo.ipynb, 57 for the
nengobones configuration, 96 for setup.cfg, 720 for from-tensorflow.ipynb,
576 for tensorflow-models.ipynb and 363 for spiking-mnist.ipynb). -/
theorem claim4_counterexample : ¬ srcTotalLines = 2380 := by decide

/-- C4, amended: the repository source files total 2379 lines, every source
document is notebook documentation or configuration, and the implementation
core is 0 lines. -/
theorem claim4_line_totals :
    srcTotalLines = 2379 ∧
    srcDocs.all (fun d =>
      d.kind == DocKind.notebookDoc || d.kind == DocKind.configDoc) = true ∧
    srcCoreLines = 0 := by decide

/-- C5, counterexample: the claim that no module-level mutable state
introduced by repository code is mutated after its creation is false: for
example from-nengo.ipynb reassigns conn.synapse and outpt_p.synapse on
objects constructed and bound at module level by earlier cells. -/
theorem claim5_counterexample :
    ¬ (repoClassDefs.all (fun c => c.bases.isEmpty) = true ∧
       moduleMutations.filter (fun m => m.stateIntroducedByRepo) = []) := by
  decide

/-- C5, amended: every class defined in the source files declares no base
class, and although module-level objects introduced by repository code are
mutated after creation in several cells, every such mutation targets an
instance of an externally-owned type, never of a repository-defined class. -/
theorem claim5_no_bases_and_only_external_mutations :
    repoClassDefs.all (fun c => c.bases.isEmpty) = true ∧
    moduleMutations.all (fun m => !m.targetTypeRepoOwned) = true := by decide

/-- C6, counterexample: the claim that the callable passed to every
TensorNode builds its return value out of TensorFlow operations applied to
its tensor inputs is false: the TensorFunc callable of from-tensorflow.ipynb
returns its tensor input x unchanged, applying no TensorFlow operation. -/
theorem claim6_counterexample :
    ¬ tensorNodeUses.all (fun u => u.body.isFrameworkApplication) = true := by
  decide

/-- C6, amended: every TensorNode output callable in the source files either
returns a tensor input unchanged or builds its return value out of
deep-learning-framework operations applied to its tensor inputs; none of them
uses plain NumPy or Python numeric code. -/
theorem claim6_tensornode_framework_ops :
    tensorNodeUses.all (fun u =>
      u.body.usesOnlyFrameworkOps &&
      (u.body.isFrameworkApplication || u.body.isInputPassThrough)) = true := by
  decide

/-- C7: each of the four notebooks is a linear script: executing its code
cells strictly top to bottom, every module-level name a cell references was
bound by some earlier cell. -/
theorem claim7_notebooks_linear :
    notebookLinear fromNengoCells = true ∧
    notebookLinear fromTensorflowCells = true ∧
    notebookLinear tensorflowModelsCells = true ∧
    notebookLinear spikingMnistCells = true := by decide

/-- C8: the onerror handler re-raises the original exception exactly when the
failing path is writable; when the path is not writable it sets the
owner-write bit via chmod and calls the failed operation func(path) exactly
once, in that order. -/
theorem claim8_onerror_spec :
    ∀ w : Bool,
      ((RmtreeEffect.reraiseOriginal ∈ onerror w) ↔ w = true) ∧
      ((onerror w).count RmtreeEffect.callFuncOnPath = if w then 0 else 1) ∧
      ((onerror w).count RmtreeEffect.chmodOwnerWrite = if w then 0 else 1) ∧
      onerror false = [RmtreeEffect.chmodOwnerWrite, RmtreeEffect.callFuncOnPath] := by
  intro w
  cases w <;> decide

/-- C9: for every integer label list with labels in 0..9, the one_hot array
has one row per label, every row has width 10, and row i holds a 1 exactly at
the column given by label i and a 0 at every other column. -/
theorem claim9_one_hot_spec (labels : List Nat)
    (h : ∀ l ∈ labels, l < 10) :
    (one_hot labels).length = labels.length ∧
    ∀ i, i < labels.length →
      ((one_hot labels).getD i []).length = 10 ∧
      ((one_hot labels).getD i []).getD (labels.getD i 0) 0 = 1 ∧
      ∀ j, j < 10 → j ≠ labels.getD i 0 →
        ((one_hot labels).getD i []).getD j 0 = 0 := by
  constructor
  · unfold one_hot
    rw [length_fancySet]
    simp [npZeros]
  · intro i hi
    have hrow := one_hot_getD_row labels i hi
    have hlab : labels.getD i 0 < 10 := by
      have hmem : labels.getD i 0 ∈ labels := by
        rw [List.getD_eq_getElem?_getD, List.getElem?_eq_getElem hi,
          Option.getD_some]
        exact List.getElem_mem hi
      exact h _ hmem
    refine ⟨?_, ?_, ?_⟩
    · rw [hrow, List.length_set, List.length_replicate]
    · rw [hrow, List.getD_eq_getElem?_getD, List.getElem?_set, if_pos rfl,
        List.length_replicate, if_pos hlab, Option.getD_some]
    · intro j hj hne
      rw [hrow, List.getD_eq_getElem?_getD, List.getElem?_set,
        if_neg (fun hc => hne hc.symm), List.getElem?_replicate, if_pos hj,
        Option.getD_some]

/-- C9, witness: the one-hot property at the concrete label list 3, 0, 9. -/
theorem claim9_one_hot_witness :
    (one_hot [3, 0, 9]).length = ([3, 0, 9] : List Nat).length ∧
    ∀ i, i < ([3, 0, 9] : List Nat).length →
      ((one_hot [3, 0, 9]).getD i []).length = 10 ∧
      ((one_hot [3, 0, 9]).getD i []).getD (([3, 0, 9] : List Nat).getD i 0) 0 = 1 ∧
      ∀ j, j < 10 → j ≠ ([3, 0, 9] : List Nat).getD i 0 →
        ((one_hot [3, 0, 9]).getD i []).getD j 0 = 0 :=
  claim9_one_hot_spec [3, 0, 9] (by decide)

/-- C10: for every probability vector of length 1001, sorted_inds is a
permutation of the indices 0..1000 ordered by non-increasing probability: the
probability at the index in position k+1 never exceeds the probability at the
index in position k, so the first five entries name the five most probable
classes. -/
theorem claim10_sorted_inds_spec (probabilities : List ℚ)
    (h : probabilities.length = 1001) :
    (sorted_inds probabilities).Perm (List.range 1001) ∧
    ∀ k, k + 1 < 1001 →
      probabilities.getD ((sorted_inds probabilities).getD (k + 1) 0) 0 ≤
      probabilities.getD ((sorted_inds probabilities).getD k 0) 0 := by
  classical
  set negmap : List ℚ := probabilities.map (fun p => -p) with hnegmap
  set le : ℕ × ℚ → ℕ × ℚ → Bool := fun a b => decide (a.2 ≤ b.2) with hle
  set s : List (ℕ × ℚ) := negmap.enum.mergeSort le with hs
  have hperm : s.Perm negmap.enum := List.mergeSort_perm _ _
  have hlen_neg : negmap.length = 1001 := by
    rw [hnegmap, List.length_map, h]
  have hlen_enum : negmap.enum.length = 1001 := by
    rw [List.enum_length, hlen_neg]
  have hlen_s : s.length = 1001 := by rw [hperm.length_eq, hlen_enum]
  have hout : sorted_inds probabilities = s.map Prod.fst := rfl
  constructor
  · rw [hout]
    have hp : (s.map Prod.fst).Perm (negmap.enum.map Prod.fst) := hperm.map _
    rwa [List.enum_map_fst, hlen_neg] at hp
  · intro k hk
    have hk1 : k + 1 < s.length := by omega
    have hk0 : k < s.length := by omega
    have htrans : ∀ a b c : ℕ × ℚ,
        le a b = true → le b c = true → le a c = true := by
      intro a b c hab hbc
      rw [hle] at hab hbc ⊢
      simp only [decide_eq_true_eq] at hab hbc ⊢
      exact le_trans hab hbc
    have htotal : ∀ a b : ℕ × ℚ, (le a b || le b a) = true := by
      intro a b
      rw [hle]
      simp only [Bool.or_eq_true, decide_eq_true_eq]
      exact le_total _ _
    have hpair := List.sorted_mergeSort htrans htotal negmap.enum
    have hrel : s[k].2 ≤ s[k + 1].2 := by
      have hp := List.pairwise_iff_getElem.mp hpair k (k + 1) hk0 hk1 (by omega)
      simp only [hle, decide_eq_true_eq] at hp
      exact hp
    have hmem : ∀ m, (hm : m < s.length) →
        ∃ hml : s[m].1 < probabilities.length,
          s[m].2 = -(probabilities[s[m].1]) := by
      intro m hm
      have h1 : s[m] ∈ negmap.enum := (hperm.mem_iff).mp (List.getElem_mem hm)
      have h2 : negmap[s[m].1]? = some s[m].2 :=
        List.mem_enum_iff_getElem?.mp h1
      rw [List.getElem?_eq_some] at h2
      obtain ⟨hlt, hval⟩ := h2
      have hlt' : s[m].1 < probabilities.length := by
        rw [hnegmap, List.length_map] at hlt
        exact hlt
      refine ⟨hlt', ?_⟩
      rw [← hval]
      simp only [hnegmap, List.getElem_map]
    obtain ⟨hbk, hvk⟩ := hmem k hk0
    obtain ⟨hbk1, hvk1⟩ := hmem (k + 1) hk1
    have hgoal : probabilities[s[k + 1].1] ≤ probabilities[s[k].1] := by
      rw [hvk, hvk1] at hrel
      exact le_of_neg_le_neg hrel
    have hgd : ∀ m, (hm : m < s.length) →
        (sorted_inds probabilities).getD m 0 = s[m].1 := by
      intro m hm
      rw [hout, List.getD_eq_getElem?_getD, List.getElem?_map,
        List.getElem?_eq_getElem hm]
      rfl
    rw [hgd k hk0, hgd (k + 1) hk1]
    simp only [List.getD_eq_getElem?_getD, List.getElem?_eq_getElem hbk1,
      List.getElem?_eq_getElem hbk, Option.getD_some]
    exact hgoal

/-- C10, witness: the sorted_inds property at a concrete length-1001
probability vector. -/
theorem claim10_sorted_inds_witness :
    (sorted_inds (List.replicate 1001 (0 : ℚ))).Perm (List.range 1001) ∧
    ∀ k, k + 1 < 1001 →
      (List.replicate 1001 (0 : ℚ)).getD
          ((sorted_inds (List.replicate 1001 (0 : ℚ))).getD (k + 1) 0) 0 ≤
      (List.replicate 1001 (0 : ℚ)).getD
          ((sorted_inds (List.replicate 1001 (0 : ℚ))).getD k 0) 0 :=
  claim10_sorted_inds_spec (List.replicate 1001 (0 : ℚ))
    (List.length_replicate 1001 (0 : ℚ))
